import Mathlib

/-!
# sample-go-web-server: a shallow embedding of `main.go`

The program is a Go HTTP server with two route handlers (`helloHandler`,
`jsonHandler`), two middlewares (`loggingMiddleware`, `recoveryMiddleware`), and a
`main` function that wires them into a `gorilla/mux` router and drives a graceful
shutdown.

Embedding.  A Go statement sequence that talks to an `http.ResponseWriter` and a
`logrus.Logger` is a value of `Act V α`: the calls it made on the writer (oldest
first), the log entries it emitted (oldest first), and how it ended (returned a
value, or panicked with a value of type `V`).  `V` is the type of panic values and
`fmtV` is the rendering of such a value under the `%v` verb of package `fmt`; both
are parameters.  Sequencing is the monadic bind of `Act`: what follows a panic does
not run.

The functions of `main.go` are translated statement by statement.  Library calls
(`net/http`, `encoding/json`, `fmt`, `logrus`, `gorilla/mux`, `path`) are modelled
from the documented behaviour of those packages; each such definition says in its
doc comment which library function it stands for.
-/

namespace GoWebServer

/-! ## Go data -/

/-- The conversion `[]byte(s)`: the UTF-8 bytes of a string, each as a number below 256. -/
def bytes (s : String) : List Nat :=
  (s.data.map (fun c => (String.utf8EncodeChar c).map UInt8.toNat)).flatten

/-- Fields of `net/url.URL` that a server-side request carries. -/
structure URL where
  Path : String
  RawQuery : String
deriving DecidableEq, Repr

/-- Fields of `net/http.Request` the program (and its router) reads, plus header and body. -/
structure Request where
  Method : String
  URL : URL
  RequestURI : String
  Header : List (String × String)
  Body : List Nat
deriving DecidableEq, Repr

/-- Constant `http.StatusOK`. -/
def StatusOK : Nat := 200
/-- Constant `http.StatusMovedPermanently`. -/
def StatusMovedPermanently : Nat := 301
/-- Constant `http.StatusNotFound`. -/
def StatusNotFound : Nat := 404
/-- Constant `http.StatusMethodNotAllowed`. -/
def StatusMethodNotAllowed : Nat := 405
/-- Constant `http.StatusInternalServerError`. -/
def StatusInternalServerError : Nat := 500

/-- One call made on an `http.ResponseWriter`. -/
inductive Call where
  /-- The call `w.Header().Set(key, value)`. -/
  | headerSet (key value : String)
  /-- The call `w.Header().Del(key)`. -/
  | headerDel (key : String)
  /-- The call `w.WriteHeader(statusCode)`. -/
  | writeHeader (statusCode : Nat)
  /-- The call `w.Write(b)`. -/
  | write (b : List Nat)
deriving DecidableEq, Repr

/-- Log levels of `logrus`, in the order of its constants (`PanicLevel` is 0). -/
inductive Level where
  | PanicLevel | FatalLevel | ErrorLevel | WarnLevel | InfoLevel | DebugLevel | TraceLevel
deriving DecidableEq, Repr

/-- Numeric value of a `logrus.Level`. -/
def Level.toNat : Level → Nat
  | .PanicLevel => 0
  | .FatalLevel => 1
  | .ErrorLevel => 2
  | .WarnLevel => 3
  | .InfoLevel => 4
  | .DebugLevel => 5
  | .TraceLevel => 6

/-- One emitted log line: its level and its message. -/
structure Entry where
  level : Level
  msg : String
deriving DecidableEq, Repr

/-- Formatter choice of a `logrus.Logger`. -/
inductive Formatter where
  | TextFormatter | JSONFormatter
deriving DecidableEq, Repr

/-- Output stream of a `logrus.Logger`. -/
inductive Output where
  | Stderr | Stdout
deriving DecidableEq, Repr

/-- The configuration held by a `logrus.Logger`. -/
structure Logger where
  Formatter : Formatter
  Out : Output
  Level : Level
deriving DecidableEq, Repr

/-- How a Go call ended: it returned a value, or it panicked with a value. -/
inductive Outcome (V : Type) (α : Type) where
  | returned (a : α)
  | panicked (v : V)
deriving DecidableEq, Repr

/-- What a Go statement sequence did: its calls on the response writer, the log lines
it emitted, and how it ended. -/
structure Act (V : Type) (α : Type) where
  calls : List Call
  log : List Entry
  out : Outcome V α

/-- A statement that does nothing and yields `a`. -/
def Act.pure {V α : Type} (a : α) : Act V α := ⟨[], [], .returned a⟩

/-- Sequencing `x; f`: the continuation runs only when `x` returned. -/
def Act.bind {V α β : Type} (x : Act V α) (f : α → Act V β) : Act V β :=
  match x.out with
  | .returned a => ⟨x.calls ++ (f a).calls, x.log ++ (f a).log, (f a).out⟩
  | .panicked v => ⟨x.calls, x.log, .panicked v⟩

instance {V : Type} : Monad (Act V) where
  pure := Act.pure
  bind := Act.bind

/-- The statement `panic(v)`. -/
def panic {V α : Type} (v : V) : Act V α := ⟨[], [], .panicked v⟩

/-- A single call on the response writer, which returns. -/
def call {V : Type} (c : Call) : Act V Unit := ⟨[c], [], .returned ()⟩

/-- Model of `w.Header().Set(key, value)`. -/
def HeaderSet {V : Type} (key value : String) : Act V Unit := call (.headerSet key value)

/-- Model of `w.Header().Del(key)`. -/
def HeaderDel {V : Type} (key : String) : Act V Unit := call (.headerDel key)

/-- Model of `w.WriteHeader(statusCode)`. -/
def WriteHeader {V : Type} (statusCode : Nat) : Act V Unit := call (.writeHeader statusCode)

/-- Model of `w.Write(b)`; the returned count and error are dropped, as the program
never reads them. -/
def Write {V : Type} (b : List Nat) : Act V Unit := call (.write b)

/-- An `http.Handler`: what `ServeHTTP(w, r)` does.  The writer `w` is not an argument:
the calls made on it are recorded, in order, in the result. -/
abbrev Handler (V : Type) := Request → Act V Unit

/-! ## The response a client sees

The writer is read as a recording writer (the behaviour of `net/http`'s response
and of `httptest.ResponseRecorder`): the status is fixed by the first `WriteHeader`,
or is 200 when a `Write` comes first or nothing is written; the header map is
snapshotted at that moment; the body is the concatenation of the `Write`s. -/

/-- Status code of the response: the code of the first `WriteHeader`, or 200 when the
first `Write` precedes any `WriteHeader` or when the handler wrote nothing. -/
def statusOf : List Call → Nat
  | [] => StatusOK
  | .writeHeader c :: _ => c
  | .write _ :: _ => StatusOK
  | _ :: rest => statusOf rest

/-- Body of the response: the concatenation of all written byte slices. -/
def bodyOf : List Call → List Nat
  | [] => []
  | .write b :: rest => b ++ bodyOf rest
  | _ :: rest => bodyOf rest

/-- The header map when the header is sent: `Set` and `Del` calls made before the first
`WriteHeader` or `Write`, applied in order to the map `h`. -/
def sentHeader (h : List (String × String)) : List Call → List (String × String)
  | [] => h
  | .headerSet k v :: rest => sentHeader ((h.filter (fun kv => kv.1 != k)) ++ [(k, v)]) rest
  | .headerDel k :: rest => sentHeader (h.filter (fun kv => kv.1 != k)) rest
  | .writeHeader _ :: _ => h
  | .write _ :: _ => h

/-- Whether a call sends bytes of the body. -/
def Call.isWrite : Call → Bool
  | .write _ => true
  | _ => false

/-- Whether a call sets the status explicitly. -/
def Call.isWriteHeader : Call → Bool
  | .writeHeader _ => true
  | _ => false

/-- Whether a call changes the header map. -/
def Call.isHeaderChange : Call → Bool
  | .headerSet _ _ => true
  | .headerDel _ => true
  | _ => false

/-! ## Logger -/

/-- Model of `logrus`'s `(*Logger).IsLevelEnabled`: a line of level `l` is emitted when
the logger's level is at least `l`. -/
def Logger.IsLevelEnabled (logger : Logger) (l : GoWebServer.Level) : Bool :=
  decide (l.toNat ≤ logger.Level.toNat)

/-- The entries a logger writes for one message at level `l`: one line, or none when the
level is not enabled. -/
def Logger.entries (logger : Logger) (l : GoWebServer.Level) (msg : String) : List Entry :=
  if logger.IsLevelEnabled l then [⟨l, msg⟩] else []

/-- Emission of one message at level `l` from inside a handler. -/
def Logger.emit {V : Type} (logger : Logger) (l : GoWebServer.Level) (msg : String) : Act V Unit :=
  ⟨[], logger.entries l msg, .returned ()⟩

/-- Model of `logger.Infof`, applied to the already formatted message. -/
def Logger.Infof {V : Type} (logger : Logger) (msg : String) : Act V Unit :=
  logger.emit .InfoLevel msg

/-- Model of `logger.Errorf`, applied to the already formatted message. -/
def Logger.Errorf {V : Type} (logger : Logger) (msg : String) : Act V Unit :=
  logger.emit .ErrorLevel msg

/-! ## Library calls used by the handlers -/

/-- Model of `fmt.Fprintln(w, a)` for one string operand: the operand followed by a
newline, handed to the writer in a single `Write`. -/
def fmt.Fprintln {V : Type} (a : String) : Act V Unit :=
  Write (bytes (a ++ "\n"))

/-- Model of `http.Error(w, error, code)`: it drops `Content-Length` (Go 1.23 and later;
earlier releases leave it), sets the content type to plain text and
`X-Content-Type-Options` to `nosniff`, writes the status, and prints the message with
`fmt.Fprintln`. -/
def http.Error {V : Type} (error : String) (code : Nat) : Act V Unit := do
  HeaderDel "Content-Length"
  HeaderSet "Content-Type" "text/plain; charset=utf-8"
  HeaderSet "X-Content-Type-Options" "nosniff"
  WriteHeader code
  fmt.Fprintln error

/-- Hexadecimal digit, lower case, as `encoding/json` writes it. -/
def json.hexDigit (n : Nat) : Char :=
  if n < 10 then Char.ofNat (48 + n) else Char.ofNat (87 + n)

/-- Model of how `encoding/json` writes one character of a string with HTML escaping on
(the default of an `Encoder`): quote and backslash get a backslash, the control
characters with a short form use it, other control characters and `<`, `>`, `&` become
`\u00XX`, U+2028 and U+2029 are escaped, everything else is copied. -/
def json.encodeChar (c : Char) : List Char :=
  if c = '"' then ['\\', '"']
  else if c = '\\' then ['\\', '\\']
  else if c.toNat = 8 then ['\\', 'b']
  else if c.toNat = 12 then ['\\', 'f']
  else if c = '\n' then ['\\', 'n']
  else if c = '\r' then ['\\', 'r']
  else if c = '\t' then ['\\', 't']
  else if c.toNat < 32 ∨ c = '<' ∨ c = '>' ∨ c = '&' then
    ['\\', 'u', '0', '0', json.hexDigit (c.toNat / 16), json.hexDigit (c.toNat % 16)]
  else if c.toNat = 0x2028 then ['\\', 'u', '2', '0', '2', '8']
  else if c.toNat = 0x2029 then ['\\', 'u', '2', '0', '2', '9']
  else [c]

/-- Model of the JSON encoding of a Go string: the escaped characters between quotes. -/
def json.encodeString (s : String) : String :=
  "\"" ++ String.mk (s.data.map json.encodeChar).flatten ++ "\""

/-- The Go struct `Response`, whose field `Message` carries the tag `json:"message"`. -/
structure Response where
  Message : String
deriving DecidableEq, Repr

/-- Model of `json.Marshal` on a `Response`: an object with the single key given by the
struct tag. -/
def json.Marshal (v : Response) : String :=
  "\x7b" ++ "\"message\":" ++ json.encodeString v.Message ++ "\x7d"

/-- Model of `json.NewEncoder(w).Encode(v)` on a `Response`: the JSON encoding of `v`
followed by a newline character, handed to the writer in a single `Write`. -/
def json.Encode {V : Type} (v : Response) : Act V Unit :=
  Write (bytes (json.Marshal v ++ "\n"))

/-! ## The handlers of `main.go` -/

/-- The function `helloHandler`: responds with a plain text message. -/
def helloHandler {V : Type} : Handler V := fun _r => do
  WriteHeader StatusOK
  Write (bytes "Hello, World!")

/-- The function `jsonHandler`: responds with a JSON message. -/
def jsonHandler {V : Type} : Handler V := fun _r => do
  let response : Response := { Message := "Hello, JSON World!" }
  HeaderSet "Content-Type" "application/json"
  json.Encode response

/-! ## The middlewares of `main.go` -/

/-- Readings of the clock during one run of the logging wrapper: what `time.Now()`
returns before the inner handler runs, and what `time.Since(start)` returns after it
(a `time.Duration`, in nanoseconds). -/
structure Clock where
  Now : Nat
  Since : Nat → Int

/-- The function `loggingMiddleware`, applied to a logger and then to the next handler.
`fmtD` is the rendering of a `time.Duration` under `%v`. -/
def loggingMiddleware {V : Type} (fmtD : Int → String) (clock : Clock) (logger : Logger)
    (next : Handler V) : Handler V := fun r => do
  logger.Infof ("Started " ++ r.Method ++ " " ++ r.RequestURI)
  let start := clock.Now
  next r
  let duration := clock.Since start
  logger.Infof ("Completed " ++ r.RequestURI ++ " in " ++ fmtD duration)

/-- What `recover()` returns inside a deferred function: the value of the panic in
flight, or nil (`none`) when the function body returned.  A panic value is never nil
(since Go 1.21 `panic(nil)` raises a `*runtime.PanicNilError`). -/
def recovered {V α : Type} : Outcome V α → Option V
  | .returned _ => none
  | .panicked v => some v

/-- A function whose body runs under `defer d()`, where the deferred function starts by
calling `recover()`: the body runs, then `d` runs on what `recover()` returned.  The
call to `recover` ends the panic, so the function ends the way `d` ends. -/
def deferRecover {V : Type} (d : Option V → Act V Unit) (body : Act V Unit) : Act V Unit :=
  let after := d (recovered body.out)
  ⟨body.calls ++ after.calls, body.log ++ after.log, after.out⟩

/-- The function `recoveryMiddleware`, applied to a logger and then to the next handler.
`fmtV` is the rendering of a panic value under `%v`. -/
def recoveryMiddleware {V : Type} (fmtV : V → String) (logger : Logger)
    (next : Handler V) : Handler V := fun r =>
  deferRecover
    (fun recoverResult =>
      match recoverResult with
      | some err => do
          logger.Errorf ("Panic: " ++ fmtV err)
          http.Error "Internal Server Error" StatusInternalServerError
      | none => pure ())
    (next r)

/-! ## Reading a body as JSON

A JSON reader, used to state what a client obtains when it parses a body.  It follows
the JSON grammar (RFC 8259): white space, the three literals, numbers, strings with
escapes, arrays and objects.  Recursion is bounded by a fuel argument; `parseJSON`
supplies more fuel than the text has characters. -/

/-- A JSON value; a number keeps its text. -/
inductive JSON where
  | null
  | bool (b : Bool)
  | number (text : String)
  | string (s : String)
  | array (items : List JSON)
  | object (fields : List (String × JSON))

namespace JSON

/-- Drop leading JSON white space. -/
def skipWs : List Char → List Char
  | [] => []
  | c :: cs => if c = ' ' ∨ c = '\t' ∨ c = '\n' ∨ c = '\r' then skipWs cs else c :: cs

/-- Value of a hexadecimal digit. -/
def hexVal (c : Char) : Option Nat :=
  if '0' ≤ c ∧ c ≤ '9' then some (c.toNat - 48)
  else if 'a' ≤ c ∧ c ≤ 'f' then some (c.toNat - 87)
  else if 'A' ≤ c ∧ c ≤ 'F' then some (c.toNat - 55)
  else none

/-- The characters of a string after its opening quote, up to the closing quote; `acc`
holds the decoded characters so far, newest first. -/
def parseChars : List Char → List Char → Option (String × List Char)
  | [], _ => none
  | '"' :: rest, acc => some (String.mk acc.reverse, rest)
  | '\\' :: 'u' :: a :: b :: c :: d :: rest, acc =>
      match hexVal a, hexVal b, hexVal c, hexVal d with
      | some x, some y, some z, some w =>
          parseChars rest (Char.ofNat (((x * 16 + y) * 16 + z) * 16 + w) :: acc)
      | _, _, _, _ => none
  | '\\' :: e :: rest, acc =>
      if e = '"' then parseChars rest ('"' :: acc)
      else if e = '\\' then parseChars rest ('\\' :: acc)
      else if e = '/' then parseChars rest ('/' :: acc)
      else if e = 'b' then parseChars rest (Char.ofNat 8 :: acc)
      else if e = 'f' then parseChars rest (Char.ofNat 12 :: acc)
      else if e = 'n' then parseChars rest ('\n' :: acc)
      else if e = 'r' then parseChars rest ('\r' :: acc)
      else if e = 't' then parseChars rest ('\t' :: acc)
      else none
  | c :: rest, acc => if c.toNat < 32 ∨ c = '\\' then none else parseChars rest (c :: acc)

/-- Split off the leading decimal digits. -/
def spanDigits : List Char → List Char × List Char
  | [] => ([], [])
  | c :: cs =>
      if c.isDigit then ((spanDigits cs).1.cons c, (spanDigits cs).2) else ([], c :: cs)

/-- A JSON number: optional minus, integer part without a superfluous leading zero,
optional fraction, optional exponent. -/
def parseNumber (cs : List Char) : Option (JSON × List Char) :=
  let (sign, r0) := match cs with
    | '-' :: r => (['-'], r)
    | r => ([], r)
  let (int, r1) := spanDigits r0
  if int = [] ∨ (int.length > 1 ∧ int.head? = some '0') then none
  else
    let fracPart : Option (List Char × List Char) := match r1 with
      | '.' :: r =>
          let (ds, r2) := spanDigits r
          if ds = [] then none else some ('.' :: ds, r2)
      | r => some ([], r)
    match fracPart with
    | none => none
    | some (frac, r2) =>
        let expPart : Option (List Char × List Char) := match r2 with
          | e :: r =>
              if e = 'e' ∨ e = 'E' then
                let (sg, r3) := match r with
                  | '+' :: t => (['+'], t)
                  | '-' :: t => (['-'], t)
                  | t => ([], t)
                let (ds, r4) := spanDigits r3
                if ds = [] then none else some (e :: sg ++ ds, r4)
              else some ([], e :: r)
          | [] => some ([], [])
        match expPart with
        | none => none
        | some (ex, r3) => some (.number (String.mk (sign ++ int ++ frac ++ ex)), r3)

mutual
/-- One JSON value at the head of the text (after white space), with the text that follows it. -/
def parseValue : Nat → List Char → Option (JSON × List Char)
  | 0, _ => none
  | n + 1, cs =>
      match skipWs cs with
      | 'n' :: 'u' :: 'l' :: 'l' :: rest => some (.null, rest)
      | 't' :: 'r' :: 'u' :: 'e' :: rest => some (.bool true, rest)
      | 'f' :: 'a' :: 'l' :: 's' :: 'e' :: rest => some (.bool false, rest)
      | '"' :: rest =>
          match parseChars rest [] with
          | some (s, r) => some (.string s, r)
          | none => none
      | '[' :: rest =>
          match skipWs rest with
          | ']' :: r => some (.array [], r)
          | r =>
              match parseItems n r with
              | some (vs, r2) => some (.array vs, r2)
              | none => none
      | '\x7b' :: rest =>
          match skipWs rest with
          | '\x7d' :: r => some (.object [], r)
          | r =>
              match parseMembers n r with
              | some (fs, r2) => some (.object fs, r2)
              | none => none
      | other => parseNumber other
/-- The items of a non-empty array, up to and including the closing bracket. -/
def parseItems : Nat → List Char → Option (List JSON × List Char)
  | 0, _ => none
  | n + 1, cs =>
      match parseValue n cs with
      | none => none
      | some (v, r) =>
          match skipWs r with
          | ',' :: r2 =>
              match parseItems n r2 with
              | some (vs, r3) => some (v :: vs, r3)
              | none => none
          | ']' :: r2 => some ([v], r2)
          | _ => none
/-- The members of a non-empty object, up to and including the closing brace. -/
def parseMembers : Nat → List Char → Option (List (String × JSON) × List Char)
  | 0, _ => none
  | n + 1, cs =>
      match skipWs cs with
      | '"' :: rest =>
          match parseChars rest [] with
          | none => none
          | some (k, r) =>
              match skipWs r with
              | ':' :: r2 =>
                  match parseValue n r2 with
                  | none => none
                  | some (v, r3) =>
                      match skipWs r3 with
                      | ',' :: r4 =>
                          match parseMembers n r4 with
                          | some (fs, r5) => some ((k, v) :: fs, r5)
                          | none => none
                      | '\x7d' :: r4 => some ([(k, v)], r4)
                      | _ => none
              | _ => none
      | _ => none
end

/-- Parse a whole text as one JSON value, white space allowed around it and nothing else. -/
def parseJSON (s : String) : Option JSON :=
  match parseValue (s.length + 1) s.data with
  | some (v, rest) => if skipWs rest = [] then some v else none
  | none => none

end JSON

/-- The text of a byte sequence made of ASCII bytes; `none` when a byte is 128 or more. -/
def asciiText (b : List Nat) : Option String :=
  if b.all (fun x => decide (x < 128)) then some (String.mk (b.map Char.ofNat)) else none

/-! ## The router (`gorilla/mux`) -/

/-- The elements of a path: the pieces between slashes (empty pieces included). -/
def path.elements : List Char → List (List Char)
  | [] => [[]]
  | c :: cs =>
      if c = '/' then [] :: path.elements cs
      else
        match path.elements cs with
        | seg :: rest => (c :: seg) :: rest
        | [] => [[c]]

/-- One step of `path.Clean` on the elements kept so far (newest first): empty and `.`
elements are dropped, `..` removes the element before it when there is one that is not
itself `..`, is dropped at the root of a rooted path, and is kept otherwise. -/
def path.step (rooted : Bool) (kept : List (List Char)) (seg : List Char) : List (List Char) :=
  if seg = [] ∨ seg = ['.'] then kept
  else if seg = ['.', '.'] then
    match kept with
    | top :: below => if top = ['.', '.'] then seg :: kept else below
    | [] => if rooted then [] else [seg]
  else seg :: kept

/-- Model of `path.Clean`: the shortest equivalent path, by the rules of its
documentation (single slashes, no `.` element, no inner `..` element, no `..` at the
root; the empty result is `.`). -/
def path.Clean (p : String) : String :=
  if p = "" then "."
  else
    let rooted := p.data.head? = some '/'
    let kept := ((path.elements p.data).foldl (path.step rooted) []).reverse
    let body := String.mk (List.intercalate ['/'] kept)
    if rooted then "/" ++ body
    else if body = "" then "." else body

/-- Model of `cleanPath` of `gorilla/mux`: the canonical form of a request path; a
leading slash is added when missing and a trailing slash is kept. -/
def mux.cleanPath (p : String) : String :=
  if p = "" then "/"
  else
    let p := if p.data.head? ≠ some '/' then "/" ++ p else p
    let np := path.Clean p
    if p.data.getLast? = some '/' ∧ np ≠ "/" then np ++ "/" else np

/-- A route registered with `router.HandleFunc(tpl, f).Methods(methods...)`, for a path
template without variables. -/
structure Route (V : Type) where
  tpl : String
  methods : List String
  handler : Handler V

/-- A `mux.Router`: its routes and its middlewares, each in registration order. -/
structure Router (V : Type) where
  routes : List (Route V)
  middlewares : List (Handler V → Handler V)

/-- Model of `mux.NewRouter()`. -/
def mux.NewRouter {V : Type} : Router V := ⟨[], []⟩

/-- Model of `router.Use(mw)`: the middleware is appended to the chain. -/
def Router.Use {V : Type} (router : Router V) (mw : Handler V → Handler V) : Router V :=
  { router with middlewares := router.middlewares ++ [mw] }

/-- Model of `router.HandleFunc(tpl, f).Methods(methods...)`: the route is appended. -/
def Router.HandleFunc {V : Type} (router : Router V) (tpl : String) (f : Handler V)
    (methods : List String) : Router V :=
  { router with routes := router.routes ++ [⟨tpl, methods, f⟩] }

/-- The handler a matched route is served with: `mux` wraps the route handler in the
middlewares from the last registered to the first, so the first registered is outermost. -/
def Router.wrap {V : Type} (router : Router V) (h : Handler V) : Handler V :=
  router.middlewares.foldr (fun mw acc => mw acc) h

/-- Path matcher of a route whose template has no variable: the request path equals the
template. -/
def Route.matchPath {V : Type} (route : Route V) (req : Request) : Bool :=
  req.URL.Path == route.tpl

/-- Method matcher of a route: the request method is one of the listed methods. -/
def Route.matchMethod {V : Type} (route : Route V) (req : Request) : Bool :=
  route.methods.contains req.Method

/-- What the router decides for a request. -/
inductive Dispatch (V : Type) where
  /-- The path is not in canonical form: redirect to the cleaned path. -/
  | redirect (cleaned : String)
  /-- A route matched: its handler is served inside the middlewares. -/
  | route (rt : Route V)
  /-- A route matched the path but none matched the method. -/
  | methodNotAllowed
  /-- No route matched the path. -/
  | notFound

/-- Model of `(*Router).Match` over the routes in order: the first route whose path and
method both match wins; `mismatch` records that some route matched the path but not
the method. -/
def Router.matchRoutes {V : Type} (req : Request) : List (Route V) → Bool → Dispatch V
  | [], mismatch => if mismatch then .methodNotAllowed else .notFound
  | rt :: rest, mismatch =>
      if rt.matchPath req then
        if rt.matchMethod req then .route rt
        else Router.matchRoutes req rest true
      else Router.matchRoutes req rest mismatch

/-- The decision of `(*Router).ServeHTTP`: a request whose path is not clean is
redirected before any route is tried; otherwise the routes are matched. -/
def Router.dispatch {V : Type} (router : Router V) (req : Request) : Dispatch V :=
  let p := mux.cleanPath req.URL.Path
  if p ≠ req.URL.Path then .redirect p
  else Router.matchRoutes req router.routes false

/-- Model of `(*Router).ServeHTTP`.  A redirect sets `Location` and writes 301; a matched
route runs its handler inside the middlewares; a method mismatch writes 405; otherwise
`http.NotFound` answers.  `urlString` is `(*URL).String`. -/
def Router.ServeHTTP {V : Type} (urlString : URL → String) (router : Router V) : Handler V :=
  fun req =>
    match router.dispatch req with
    | .redirect p => do
        HeaderSet "Location" (urlString { req.URL with Path := p })
        WriteHeader StatusMovedPermanently
    | .route rt => router.wrap rt.handler req
    | .methodNotAllowed => WriteHeader StatusMethodNotAllowed
    | .notFound => http.Error "404 page not found" StatusNotFound

/-! ## The function `main` -/

/-- The logger `main` builds: `logrus.New()` followed by the three setters. -/
def mainLogger : Logger :=
  let logger : Logger := { Formatter := .TextFormatter, Out := .Stderr, Level := .InfoLevel }
  let logger := { logger with Formatter := .JSONFormatter }
  let logger := { logger with Out := .Stdout }
  { logger with Level := .InfoLevel }

/-- The router `main` builds: the two middlewares, then the two routes. -/
def mainRouter {V : Type} (fmtV : V → String) (fmtD : Int → String) (clock : Clock) : Router V :=
  let logger := mainLogger
  let router : Router V := mux.NewRouter
  let router := router.Use (loggingMiddleware fmtD clock logger)
  let router := router.Use (recoveryMiddleware fmtV logger)
  let router := router.HandleFunc "/" helloHandler ["GET"]
  router.HandleFunc "/json" jsonHandler ["GET"]

/-- Model of `os.Getenv`: the value of the variable, or the empty string when it is unset. -/
def os.Getenv (env : String → Option String) (key : String) : String :=
  match env key with
  | some v => v
  | none => ""

/-- The duration `time.Second`, in nanoseconds. -/
def time.Second : Int := 1000000000

/-- Fields of the `http.Server` that `main` fills in. -/
structure Server where
  Addr : String
  WriteTimeout : Int
  ReadTimeout : Int
  IdleTimeout : Int
deriving DecidableEq, Repr

/-- The listen address computed by `main`: read the port from the environment variable
or default to 8080. -/
def mainAddr (env : String → Option String) : String :=
  let port := os.Getenv env "PORT"
  let port := if port == "" then "8080" else port
  ":" ++ port

/-- The server value `srv` built by `main`. -/
def mainServer (env : String → Option String) : Server :=
  { Addr := mainAddr env
    WriteTimeout := 15 * time.Second
    ReadTimeout := 15 * time.Second
    IdleTimeout := 60 * time.Second }

/-- The process signals `SIGHUP`, `SIGINT`, `SIGQUIT` and `SIGTERM`.  The default action
of the Go runtime for each of them ends the process; `signal.Notify` replaces that
action, for the signals it is given, by delivery on the channel. -/
inductive Signal where
  | SIGHUP | SIGINT | SIGQUIT | SIGTERM
deriving DecidableEq, Repr

/-- The signal `os.Interrupt`. -/
def os.Interrupt : Signal := .SIGINT

/-- The error `srv.ListenAndServe()` returns: `http.ErrServerClosed` after `Shutdown`, or
another error (for instance when the port cannot be bound), given by its message. -/
inductive ServeError where
  | ErrServerClosed
  | other (msg : String)
deriving DecidableEq, Repr

/-- What happens first while `main` waits on `<-quit`: nothing (the server keeps
serving), a signal arrives, or `srv.ListenAndServe()` returns an error other than
`http.ErrServerClosed` in the serving goroutine (the port cannot be bound).  The return
of that error and the `Fatalf` that follows it are taken as one step. -/
inductive Wait where
  | nothing
  | signal (s : Signal)
  | listenFailed (err : String)
deriving DecidableEq, Repr

/-- What the surroundings supply to one run of `main`: the environment, what happens
while `main` waits, and the error `srv.Shutdown` returns (`none` is nil). -/
structure World where
  env : String → Option String
  wait : Wait
  shutdownErr : Option String

/-- A step of one of the two goroutines that is visible outside it. -/
inductive Event where
  /-- The statement `go func() ...`: the serving goroutine is started. -/
  | goServe (addr : String)
  /-- The call `signal.Notify(quit, sigs...)`. -/
  | notify (sigs : List Signal)
  /-- A line written by the logger. -/
  | log (e : Entry)
  /-- The call `srv.ListenAndServe()` on a server with the given address. -/
  | listenAndServe (addr : String)
  /-- The call `srv.Shutdown(ctx)`, `ctx` carrying the given timeout. -/
  | shutdown (timeout : Int)
  /-- The deferred `cancel()`, run when `main` returns. -/
  | cancel
deriving DecidableEq, Repr

/-- How the process stands at the end of a run: still running (`main` waits on `<-quit`
while the server serves), exited with a status, or ended by the default action of a
signal that was not given to `signal.Notify`. -/
inductive Exit where
  | running
  | status (code : Nat)
  | killed (s : Signal)
deriving DecidableEq, Repr

/-- One run of the program: the steps of the main goroutine, the steps of the serving
goroutine (each in its own order), and how the process stands at the end. -/
structure Run where
  main : List Event
  serve : List Event
  exit : Exit
deriving DecidableEq, Repr

/-- The events of a goroutine for one message logged at a level. -/
def Logger.lines (logger : Logger) (l : GoWebServer.Level) (msg : String) : List Event :=
  (logger.entries l msg).map Event.log

/-- Model of the receive `<-quit` after `signal.Notify(quit, sigs...)`: the channel
delivers a signal only when it is one of the registered ones. -/
def recvQuit (sigs : List Signal) (arriving : Option Signal) : Option Signal :=
  match arriving with
  | some s => if sigs.contains s then some s else none
  | none => none

/-- The serving goroutine that `main` starts with `go func() ...`.  `result` is what
`srv.ListenAndServe()` returns, `none` when the call does not return during the run.
The goroutine logs its start line, calls `ListenAndServe`, and when the error is neither
nil nor `http.ErrServerClosed` calls `logger.Fatalf`, which writes its line and ends
the process with status 1.  The result is the steps and the exit status, if any. -/
def serveGoroutine (logger : Logger) (srv : Server) (result : Option ServeError) :
    List Event × Option Exit :=
  let evs := logger.lines .InfoLevel ("Starting server on " ++ srv.Addr)
  let evs := evs ++ [.listenAndServe srv.Addr]
  match result with
  | none => (evs, none)
  | some .ErrServerClosed => (evs, none)
  | some (.other msg) =>
      (evs ++ logger.lines .FatalLevel ("Server failed to start: " ++ msg), some (.status 1))

/-- The function `main`, from the start of the serving goroutine on.  `logger.Fatalf`
writes its line and ends the process with status 1, so neither the statements after it
nor the deferred `cancel()` run; returning from `main` ends the process with status 0.
When `ListenAndServe` fails first, the serving goroutine ends the process and `main`
never gets past `<-quit`; when a signal that was not registered arrives first, the
process ends by the default action of that signal; `Shutdown` makes `ListenAndServe`
return `http.ErrServerClosed`. -/
def main (world : World) : Run :=
  let logger := mainLogger
  let srv := mainServer world.env
  let started : List Event := [.goServe srv.Addr]
  let sigs := [os.Interrupt, Signal.SIGTERM]
  let started := started ++ [.notify sigs]
  match world.wait with
  | .listenFailed err =>
      let serve := serveGoroutine logger srv (some (.other err))
      { main := started, serve := serve.1,
        exit := match serve.2 with
          | some e => e
          | none => .running }
  | .nothing =>
      { main := started, serve := (serveGoroutine logger srv none).1, exit := .running }
  | .signal s =>
      match recvQuit sigs (some s) with
      | none =>
          { main := started, serve := (serveGoroutine logger srv none).1, exit := .killed s }
      | some _ =>
          let serve := (serveGoroutine logger srv (some .ErrServerClosed)).1
          let evs := started ++ logger.lines .InfoLevel "Shutting down server..."
          let timeout := 30 * time.Second
          let evs := evs ++ [.shutdown timeout]
          match world.shutdownErr with
          | some err =>
              { main := evs ++ logger.lines .FatalLevel ("Server forced to shutdown: " ++ err),
                serve := serve, exit := .status 1 }
          | none =>
              { main := evs ++ logger.lines .InfoLevel "Server exiting" ++ [.cancel],
                serve := serve, exit := .status 0 }

/-! ## Sample inputs -/

/-- A request with the given method and path, no query, no header, no body. -/
def sampleRequest (method reqPath : String) : Request :=
  { Method := method, URL := { Path := reqPath, RawQuery := "" }, RequestURI := reqPath,
    Header := [], Body := [] }

/-- A handler that panics with the string `boom` before writing anything. -/
def boomHandler : Handler String := fun _r => panic "boom"

/-- A handler that sets a header, then panics with the string `boom`. -/
def headerThenBoomHandler : Handler String := fun _r => do
  HeaderSet "X-Trace" "1"
  panic "boom"

/-- A clock on which every run takes 5 nanoseconds. -/
def sampleClock : Clock := { Now := 0, Since := fun _ => 5 }

/-- An environment in which only `PORT` is set. -/
def envWithPort (p : String) : String → Option String :=
  fun key => if key = "PORT" then some p else none

/-- An environment in which no variable is set. -/
def envEmpty : String → Option String := fun _ => none

/-! ## Lemmas on sequencing -/

theorem bind_eq {V α β : Type} (x : Act V α) (f : α → Act V β) :
    (x >>= f) = Act.bind x f := rfl

theorem bind_returned {V α β : Type} (x : Act V α) (f : α → Act V β) (a : α)
    (h : x.out = .returned a) :
    Act.bind x f = ⟨x.calls ++ (f a).calls, x.log ++ (f a).log, (f a).out⟩ := by
  unfold Act.bind
  rw [h]

theorem bind_panicked {V α β : Type} (x : Act V α) (f : α → Act V β) (v : V)
    (h : x.out = .panicked v) :
    Act.bind x f = ⟨x.calls, x.log, .panicked v⟩ := by
  unfold Act.bind
  rw [h]

theorem emit_bind {V β : Type} (logger : Logger) (l : Level) (msg : String)
    (f : Unit → Act V β) :
    Act.bind (logger.emit l msg) f
      = ⟨(f ()).calls, logger.entries l msg ++ (f ()).log, (f ()).out⟩ := by
  simp [Act.bind, Logger.emit]

theorem httpError_eq {V : Type} (error : String) (code : Nat) :
    (http.Error error code : Act V Unit)
      = ⟨[.headerDel "Content-Length",
          .headerSet "Content-Type" "text/plain; charset=utf-8",
          .headerSet "X-Content-Type-Options" "nosniff",
          .writeHeader code,
          .write (bytes (error ++ "\n"))], [], .returned ()⟩ := rfl

theorem statusOf_append_headerOnly (xs ys : List Call)
    (h : ∀ c ∈ xs, c.isWrite = false ∧ c.isWriteHeader = false) :
    statusOf (xs ++ ys) = statusOf ys := by
  induction xs with
  | nil => rfl
  | cons c rest ih =>
      have hc := h c (List.mem_cons_self c rest)
      have hrest : ∀ d ∈ rest, d.isWrite = false ∧ d.isWriteHeader = false :=
        fun d hd => h d (List.mem_cons_of_mem c hd)
      cases c with
      | headerSet k v => simpa [statusOf] using ih hrest
      | headerDel k => simpa [statusOf] using ih hrest
      | writeHeader n => simp [Call.isWriteHeader] at hc
      | write b => simp [Call.isWrite] at hc

theorem bodyOf_append (xs ys : List Call) : bodyOf (xs ++ ys) = bodyOf xs ++ bodyOf ys := by
  induction xs with
  | nil => rfl
  | cons c rest ih =>
      cases c <;> simp [bodyOf, ih]

theorem bodyOf_headerOnly (xs : List Call)
    (h : ∀ c ∈ xs, c.isWrite = false ∧ c.isWriteHeader = false) : bodyOf xs = [] := by
  induction xs with
  | nil => rfl
  | cons c rest ih =>
      have hc := h c (List.mem_cons_self c rest)
      have hrest : ∀ d ∈ rest, d.isWrite = false ∧ d.isWriteHeader = false :=
        fun d hd => h d (List.mem_cons_of_mem c hd)
      cases c with
      | headerSet k v => simpa [bodyOf] using ih hrest
      | headerDel k => simpa [bodyOf] using ih hrest
      | writeHeader n => simp [Call.isWriteHeader] at hc
      | write b => simp [Call.isWrite] at hc

theorem loggingMiddleware_eq {V : Type} (fmtD : Int → String) (clock : Clock)
    (logger : Logger) (next : Handler V) (r : Request) :
    loggingMiddleware fmtD clock logger next r
      = Act.bind (logger.emit .InfoLevel ("Started " ++ r.Method ++ " " ++ r.RequestURI))
          (fun _ => Act.bind (next r) (fun _ =>
            logger.emit .InfoLevel
              ("Completed " ++ r.RequestURI ++ " in " ++ fmtD (clock.Since clock.Now)))) := rfl

theorem recoveryMiddleware_returned {V : Type} (fmtV : V → String) (logger : Logger)
    (next : Handler V) (r : Request) (a : Unit) (h : (next r).out = .returned a) :
    recoveryMiddleware fmtV logger next r = ⟨(next r).calls, (next r).log, .returned ()⟩ := by
  simp [recoveryMiddleware, deferRecover, recovered, h, pure, Act.pure]

theorem recoveryMiddleware_panicked {V : Type} (fmtV : V → String) (logger : Logger)
    (next : Handler V) (r : Request) (v : V) (h : (next r).out = .panicked v) :
    recoveryMiddleware fmtV logger next r
      = ⟨(next r).calls ++
          [.headerDel "Content-Length",
           .headerSet "Content-Type" "text/plain; charset=utf-8",
           .headerSet "X-Content-Type-Options" "nosniff",
           .writeHeader StatusInternalServerError,
           .write (bytes ("Internal Server Error" ++ "\n"))],
         (next r).log ++ logger.entries .ErrorLevel ("Panic: " ++ fmtV v),
         .returned ()⟩ := by
  simp [recoveryMiddleware, deferRecover, recovered, h, bind_eq, Logger.Errorf, emit_bind,
    httpError_eq]

theorem recoveryMiddleware_out {V : Type} (fmtV : V → String) (logger : Logger)
    (next : Handler V) (r : Request) :
    (recoveryMiddleware fmtV logger next r).out = .returned () := by
  cases h : (next r).out with
  | returned a => rw [recoveryMiddleware_returned fmtV logger next r a h]
  | panicked v => rw [recoveryMiddleware_panicked fmtV logger next r v h]

theorem mainRouter_dispatch {V : Type} (fmtV : V → String) (fmtD : Int → String)
    (clock : Clock) (req : Request) :
    (mainRouter fmtV fmtD clock).dispatch req
      = if mux.cleanPath req.URL.Path ≠ req.URL.Path then .redirect (mux.cleanPath req.URL.Path)
        else if req.URL.Path = "/" then
          (if req.Method = "GET" then .route ⟨"/", ["GET"], helloHandler⟩ else .methodNotAllowed)
        else if req.URL.Path = "/json" then
          (if req.Method = "GET" then .route ⟨"/json", ["GET"], jsonHandler⟩
           else .methodNotAllowed)
        else .notFound := by
  unfold Router.dispatch
  show (if mux.cleanPath req.URL.Path ≠ req.URL.Path then _ else _) = _
  by_cases hc : mux.cleanPath req.URL.Path ≠ req.URL.Path
  · rw [if_pos hc, if_pos hc]
  · rw [if_neg hc, if_neg hc]
    have hroutes : (mainRouter fmtV fmtD clock).routes
        = [⟨"/", ["GET"], helloHandler⟩, ⟨"/json", ["GET"], jsonHandler⟩] := rfl
    rw [hroutes]
    by_cases hp : req.URL.Path = "/"
    · by_cases hm : req.Method = "GET"
      · simp [Router.matchRoutes, Route.matchPath, Route.matchMethod, hp, hm]
      · simp [Router.matchRoutes, Route.matchPath, Route.matchMethod, hp, hm]
    · by_cases hj : req.URL.Path = "/json"
      · by_cases hm : req.Method = "GET"
        · simp [Router.matchRoutes, Route.matchPath, Route.matchMethod, hj, hm]
        · simp [Router.matchRoutes, Route.matchPath, Route.matchMethod, hj, hm]
      · simp [Router.matchRoutes, Route.matchPath, Route.matchMethod, hp, hj]

/-! ## The handlers -/

/-- C1: for every request, `helloHandler` calls `WriteHeader(200)` exactly once and then
writes the 13 bytes of `Hello, World!` in one `Write`; it changes no header, logs
nothing, returns normally, and does the same on every other request. -/
theorem helloHandler_writes_200_then_hello {V : Type} (r : Request) :
    (helloHandler (V := V) r).calls = [.writeHeader 200, .write (bytes "Hello, World!")]
    ∧ (helloHandler (V := V) r).calls.filter Call.isWriteHeader = [.writeHeader 200]
    ∧ bytes "Hello, World!" = [72, 101, 108, 108, 111, 44, 32, 87, 111, 114, 108, 100, 33]
    ∧ (bytes "Hello, World!").length = 13
    ∧ (helloHandler (V := V) r).calls.filter Call.isHeaderChange = []
    ∧ statusOf (helloHandler (V := V) r).calls = 200
    ∧ bodyOf (helloHandler (V := V) r).calls = bytes "Hello, World!"
    ∧ (helloHandler (V := V) r).out = .returned ()
    ∧ ∀ r2 : Request, helloHandler (V := V) r2 = helloHandler (V := V) r := by
  refine ⟨rfl, rfl, by decide, by decide, rfl, rfl, ?_, rfl, fun _ => rfl⟩
  show bytes "Hello, World!" ++ [] = bytes "Hello, World!"
  simp

/-- C2: for every request, `jsonHandler` first sets `Content-Type` to
`application/json` and only then writes the body, in one `Write`; it never calls
`WriteHeader`, so the status is the default 200 and the header sent carries that
content type; the body, read as JSON, is the object with the single field `message`
of value `Hello, JSON World!`. -/
theorem jsonHandler_header_then_json {V : Type} (r : Request) :
    (jsonHandler (V := V) r).calls
        = [.headerSet "Content-Type" "application/json",
           .write (bytes "\x7b\"message\":\"Hello, JSON World!\"\x7d\n")]
    ∧ (jsonHandler (V := V) r).calls.filter Call.isWriteHeader = []
    ∧ statusOf (jsonHandler (V := V) r).calls = 200
    ∧ sentHeader [] (jsonHandler (V := V) r).calls = [("Content-Type", "application/json")]
    ∧ (asciiText (bodyOf (jsonHandler (V := V) r).calls)).bind JSON.parseJSON
        = some (.object [("message", .string "Hello, JSON World!")])
    ∧ (jsonHandler (V := V) r).out = .returned () :=
  ⟨rfl, rfl, rfl, rfl, rfl, rfl⟩

/-- C3 (as stated, refuted): on the request `GET /json` the body the router of `main`
answers with is not the bare text of the JSON object: it is one byte longer, and so is
the body `jsonHandler` writes. -/
theorem jsonHandler_body_not_bare_object :
    bodyOf (jsonHandler (V := String) (sampleRequest "GET" "/json")).calls
        ≠ bytes "\x7b\"message\":\"Hello, JSON World!\"\x7d"
    ∧ (bodyOf (jsonHandler (V := String) (sampleRequest "GET" "/json")).calls).length = 33
    ∧ (bytes "\x7b\"message\":\"Hello, JSON World!\"\x7d").length = 32
    ∧ bodyOf (Router.ServeHTTP (fun u => u.Path)
          (mainRouter (fun v : String => v) (fun _ => "5ns") sampleClock)
          (sampleRequest "GET" "/json")).calls
        ≠ bytes "\x7b\"message\":\"Hello, JSON World!\"\x7d"
    ∧ (bodyOf (Router.ServeHTTP (fun u => u.Path)
          (mainRouter (fun v : String => v) (fun _ => "5ns") sampleClock)
          (sampleRequest "GET" "/json")).calls).length = 33 := by
  decide

/-- C3 (amended): for every request with method `GET` and path `/json`, the body of the
response the router of `main` gives is exactly the text of the JSON object followed by
one newline byte (10), with status 200 and content type `application/json`.  It is the
body `jsonHandler` writes on any request, which the configured chain (logging around
recovery around the handler) passes on unchanged. -/
theorem get_json_body_is_object_then_newline {V : Type} (fmtV : V → String)
    (fmtD : Int → String) (clock : Clock) (urlString : URL → String) (req : Request)
    (hmethod : req.Method = "GET") (hpath : req.URL.Path = "/json") :
    bodyOf (Router.ServeHTTP urlString (mainRouter fmtV fmtD clock) req).calls
        = bytes "\x7b\"message\":\"Hello, JSON World!\"\x7d" ++ [10]
    ∧ statusOf (Router.ServeHTTP urlString (mainRouter fmtV fmtD clock) req).calls = 200
    ∧ sentHeader [] (Router.ServeHTTP urlString (mainRouter fmtV fmtD clock) req).calls
        = [("Content-Type", "application/json")]
    ∧ (∀ r : Request, bodyOf (jsonHandler (V := V) r).calls
        = bytes "\x7b\"message\":\"Hello, JSON World!\"\x7d" ++ [10])
    ∧ (∀ r : Request, bodyOf (loggingMiddleware fmtD clock mainLogger
          (recoveryMiddleware fmtV mainLogger jsonHandler) r).calls
        = bytes "\x7b\"message\":\"Hello, JSON World!\"\x7d" ++ [10]) := by
  have hchain : ∀ r : Request,
      (loggingMiddleware fmtD clock mainLogger
          (recoveryMiddleware fmtV mainLogger jsonHandler) r).calls
        = (jsonHandler (V := V) r).calls := by
    intro r
    have hrec := recoveryMiddleware_returned fmtV mainLogger jsonHandler r () rfl
    rw [loggingMiddleware_eq, emit_bind, bind_returned _ _ () (by rw [hrec])]
    simp only [hrec, Logger.emit, List.append_nil]
  have hserve : (Router.ServeHTTP urlString (mainRouter fmtV fmtD clock) req).calls
      = (jsonHandler (V := V) req).calls := by
    have hclean : ¬ (mux.cleanPath req.URL.Path ≠ req.URL.Path) := by
      rw [hpath]
      decide
    have hroot : ¬ (req.URL.Path = "/") := by
      rw [hpath]
      decide
    unfold Router.ServeHTTP
    rw [mainRouter_dispatch, if_neg hclean, if_neg hroot, if_pos hpath, if_pos hmethod]
    exact hchain req
  refine ⟨?_, ?_, ?_, fun _ => rfl, ?_⟩
  · rw [hserve]
    rfl
  · rw [hserve]
    rfl
  · rw [hserve]
    rfl
  · intro r
    rw [hchain r]
    rfl

/-- Witness for C3: the request `GET /json` with no query, header or body. -/
theorem get_json_body_is_object_then_newline_witness :
    (sampleRequest "GET" "/json").Method = "GET"
    ∧ (sampleRequest "GET" "/json").URL.Path = "/json"
    ∧ bodyOf (Router.ServeHTTP (fun u => u.Path)
          (mainRouter (fun v : String => v) (fun _ => "5ns") sampleClock)
          (sampleRequest "GET" "/json")).calls
        = bytes "\x7b\"message\":\"Hello, JSON World!\"\x7d" ++ [10] :=
  ⟨rfl, rfl,
    (get_json_body_is_object_then_newline (fun v : String => v) (fun _ => "5ns") sampleClock
      (fun u => u.Path) (sampleRequest "GET" "/json") rfl rfl).1⟩

/-! ## The middlewares -/

/-- C4 (as stated, refuted): the handler `boomHandler` panics before writing anything, yet
the body the recovery wrapper writes is not the bare text `Internal Server Error` (it
is one byte longer); and on a logger whose level is `FatalLevel` the wrapper logs no
line at all. -/
theorem recoveryMiddleware_body_not_bare_message :
    (boomHandler (sampleRequest "GET" "/")).out = .panicked "boom"
    ∧ (boomHandler (sampleRequest "GET" "/")).calls = []
    ∧ bodyOf (recoveryMiddleware (fun v => v) mainLogger boomHandler
          (sampleRequest "GET" "/")).calls ≠ bytes "Internal Server Error"
    ∧ (bodyOf (recoveryMiddleware (fun v => v) mainLogger boomHandler
          (sampleRequest "GET" "/")).calls).length = 22
    ∧ (recoveryMiddleware (fun v => v) { mainLogger with Level := .FatalLevel } boomHandler
          (sampleRequest "GET" "/")).log = [] := by
  decide

/-- C4 (amended): when the inner handler panics with a value `v` before any `WriteHeader`
or `Write`, and the logger admits error lines (as the logger of `main` does), the
recovery wrapper adds exactly one log line, of error level, with message `Panic: `
followed by the description of `v`; the response has status 500 and its body is
`Internal Server Error` followed by one newline byte (10). -/
theorem recoveryMiddleware_panic_gives_500 {V : Type} (fmtV : V → String) (logger : Logger)
    (next : Handler V) (r : Request) (v : V)
    (hlevel : logger.IsLevelEnabled .ErrorLevel = true)
    (hpanic : (next r).out = .panicked v)
    (hclean : ∀ c ∈ (next r).calls, c.isWrite = false ∧ c.isWriteHeader = false) :
    (recoveryMiddleware fmtV logger next r).log
        = (next r).log ++ [⟨.ErrorLevel, "Panic: " ++ fmtV v⟩]
    ∧ statusOf (recoveryMiddleware fmtV logger next r).calls = 500
    ∧ bodyOf (recoveryMiddleware fmtV logger next r).calls
        = bytes "Internal Server Error" ++ [10] := by
  rw [recoveryMiddleware_panicked fmtV logger next r v hpanic]
  refine ⟨?_, ?_, ?_⟩
  · simp [Logger.entries, hlevel]
  · show statusOf ((next r).calls ++ _) = 500
    rw [statusOf_append_headerOnly _ _ hclean]
    rfl
  · show bodyOf ((next r).calls ++ _) = _
    rw [bodyOf_append, bodyOf_headerOnly _ hclean]
    rfl

/-- Witness for C4: the handler that sets a header and then panics with `boom`, under the
logger of `main`. -/
theorem recoveryMiddleware_panic_gives_500_witness :
    mainLogger.IsLevelEnabled .ErrorLevel = true
    ∧ (headerThenBoomHandler (sampleRequest "GET" "/")).out = .panicked "boom"
    ∧ (∀ c ∈ (headerThenBoomHandler (sampleRequest "GET" "/")).calls,
        c.isWrite = false ∧ c.isWriteHeader = false)
    ∧ (recoveryMiddleware (fun v => v) mainLogger headerThenBoomHandler
          (sampleRequest "GET" "/")).log = [] ++ [⟨.ErrorLevel, "Panic: " ++ "boom"⟩]
    ∧ statusOf (recoveryMiddleware (fun v => v) mainLogger headerThenBoomHandler
          (sampleRequest "GET" "/")).calls = 500
    ∧ bodyOf (recoveryMiddleware (fun v => v) mainLogger headerThenBoomHandler
          (sampleRequest "GET" "/")).calls = bytes "Internal Server Error" ++ [10] :=
  ⟨by decide, by decide, by decide,
    recoveryMiddleware_panic_gives_500 (fun v => v) mainLogger headerThenBoomHandler
      (sampleRequest "GET" "/") "boom" (by decide) (by decide) (by decide)⟩

/-- C5: for every inner handler and every request, the handler returned by
`recoveryMiddleware` returns normally, whatever the inner handler wrote and whether it
returned or panicked (with any value). -/
theorem recoveryMiddleware_returns_normally {V : Type} (fmtV : V → String) (logger : Logger)
    (next : Handler V) (r : Request) :
    (recoveryMiddleware fmtV logger next r).out = .returned () :=
  recoveryMiddleware_out fmtV logger next r

/-- C6: for every inner handler and every request, the handler returned by
`loggingMiddleware` makes exactly the calls of the inner handler on the response
writer and ends the way the inner handler ends (returns when it returns, panics with
the same value when it panics); the only addition is log lines: a `Started` line
before the lines of the inner handler and, when it returns, a `Completed` line after
them. -/
theorem loggingMiddleware_transparent {V : Type} (fmtD : Int → String) (clock : Clock)
    (logger : Logger) (next : Handler V) (r : Request) :
    (loggingMiddleware fmtD clock logger next r).calls = (next r).calls
    ∧ (loggingMiddleware fmtD clock logger next r).out = (next r).out
    ∧ (loggingMiddleware fmtD clock logger next r).log
        = logger.entries .InfoLevel ("Started " ++ r.Method ++ " " ++ r.RequestURI)
          ++ (next r).log
          ++ (match (next r).out with
              | .returned _ =>
                  logger.entries .InfoLevel
                    ("Completed " ++ r.RequestURI ++ " in " ++ fmtD (clock.Since clock.Now))
              | .panicked _ => []) := by
  rw [loggingMiddleware_eq, emit_bind]
  cases h : (next r).out with
  | returned a =>
      rw [bind_returned _ _ a h]
      simp [Logger.emit]
  | panicked v =>
      rw [bind_panicked _ _ v h]
      simp

/-- C7: in the chain `main` configures (logging registered first, so outermost, around
recovery, around the route handler), the log of one request is: the info line
`Started <method> <request URI>`, then the lines of the handler itself, then the error
line `Panic: <value>` exactly when the handler panicked, then the info line
`Completed <request URI> in <duration>`, which is written in both cases.  The two route
handlers log nothing, so their trace is the `Started` line then the `Completed` line. -/
theorem configured_chain_log_trace {V : Type} (fmtV : V → String) (fmtD : Int → String)
    (clock : Clock) (h : Handler V) (r : Request) :
    (mainRouter fmtV fmtD clock).wrap h
        = loggingMiddleware fmtD clock mainLogger (recoveryMiddleware fmtV mainLogger h)
    ∧ ((mainRouter fmtV fmtD clock).wrap h r).log
        = [⟨.InfoLevel, "Started " ++ r.Method ++ " " ++ r.RequestURI⟩]
          ++ (h r).log
          ++ (match (h r).out with
              | .returned _ => []
              | .panicked v => [⟨.ErrorLevel, "Panic: " ++ fmtV v⟩])
          ++ [⟨.InfoLevel,
                "Completed " ++ r.RequestURI ++ " in " ++ fmtD (clock.Since clock.Now)⟩]
    ∧ ((mainRouter fmtV fmtD clock).wrap helloHandler r).log
        = [⟨.InfoLevel, "Started " ++ r.Method ++ " " ++ r.RequestURI⟩,
           ⟨.InfoLevel,
             "Completed " ++ r.RequestURI ++ " in " ++ fmtD (clock.Since clock.Now)⟩]
    ∧ ((mainRouter fmtV fmtD clock).wrap jsonHandler r).log
        = [⟨.InfoLevel, "Started " ++ r.Method ++ " " ++ r.RequestURI⟩,
           ⟨.InfoLevel,
             "Completed " ++ r.RequestURI ++ " in " ++ fmtD (clock.Since clock.Now)⟩] := by
  have hinfo : ∀ msg : String, mainLogger.entries .InfoLevel msg = [⟨.InfoLevel, msg⟩] :=
    fun _ => rfl
  have herr : ∀ msg : String, mainLogger.entries .ErrorLevel msg = [⟨.ErrorLevel, msg⟩] :=
    fun _ => rfl
  have hgen : ∀ g : Handler V,
      (loggingMiddleware fmtD clock mainLogger (recoveryMiddleware fmtV mainLogger g) r).log
        = [⟨.InfoLevel, "Started " ++ r.Method ++ " " ++ r.RequestURI⟩]
          ++ (g r).log
          ++ (match (g r).out with
              | .returned _ => []
              | .panicked v => [⟨.ErrorLevel, "Panic: " ++ fmtV v⟩])
          ++ [⟨.InfoLevel,
                "Completed " ++ r.RequestURI ++ " in " ++ fmtD (clock.Since clock.Now)⟩] := by
    intro g
    rw [loggingMiddleware_eq, emit_bind,
      bind_returned _ _ () (recoveryMiddleware_out fmtV mainLogger g r)]
    cases hg : (g r).out with
    | returned a =>
        rw [recoveryMiddleware_returned fmtV mainLogger g r a hg]
        simp [Logger.emit, hinfo]
    | panicked v =>
        rw [recoveryMiddleware_panicked fmtV mainLogger g r v hg]
        simp [Logger.emit, hinfo, herr]
  have hwrap : ∀ g : Handler V, (mainRouter fmtV fmtD clock).wrap g
      = loggingMiddleware fmtD clock mainLogger (recoveryMiddleware fmtV mainLogger g) :=
    fun _ => rfl
  refine ⟨hwrap h, ?_, ?_, ?_⟩
  · rw [hwrap, hgen]
  · rw [hwrap, hgen]
    rfl
  · rw [hwrap, hgen]
    rfl

/-! ## The router -/

/-- C8 (as stated, refuted): the request `GET //json` is neither `GET /` nor `GET /json`,
and the router answers it with status 301 (a redirect to `/json`), which is neither
404 nor 405. -/
theorem router_unclean_path_gives_301 :
    ¬ ((sampleRequest "GET" "//json").Method = "GET"
        ∧ (sampleRequest "GET" "//json").URL.Path = "/")
    ∧ ¬ ((sampleRequest "GET" "//json").Method = "GET"
        ∧ (sampleRequest "GET" "//json").URL.Path = "/json")
    ∧ statusOf (Router.ServeHTTP (fun u => u.Path)
          (mainRouter (fun v : String => v) (fun _ => "5ns") sampleClock)
          (sampleRequest "GET" "//json")).calls = 301
    ∧ (Router.ServeHTTP (fun u => u.Path)
          (mainRouter (fun v : String => v) (fun _ => "5ns") sampleClock)
          (sampleRequest "GET" "//json")).calls
        = [.headerSet "Location" "/json", .writeHeader 301] := by
  decide

/-- C8 (amended): for every request that is neither `GET /` nor `GET /json`, the router
of `main` dispatches to no route (neither handler runs), and the status is 301 when
the path is not in canonical form, otherwise 405 when the path is `/` or `/json` (only
the method differs), otherwise 404.  A request reaches a route only with the method
`GET` and a path equal to the route's path. -/
theorem router_unmatched_request {V : Type} (fmtV : V → String) (fmtD : Int → String)
    (clock : Clock) (urlString : URL → String) (req : Request)
    (h1 : ¬ (req.Method = "GET" ∧ req.URL.Path = "/"))
    (h2 : ¬ (req.Method = "GET" ∧ req.URL.Path = "/json")) :
    (∀ rt : Route V, (mainRouter fmtV fmtD clock).dispatch req ≠ .route rt)
    ∧ statusOf (Router.ServeHTTP urlString (mainRouter fmtV fmtD clock) req).calls
        = (if mux.cleanPath req.URL.Path ≠ req.URL.Path then 301
           else if req.URL.Path = "/" ∨ req.URL.Path = "/json" then 405
           else 404)
    ∧ (∀ (req2 : Request) (rt : Route V),
        (mainRouter fmtV fmtD clock).dispatch req2 = .route rt →
          req2.Method = "GET" ∧ req2.URL.Path = rt.tpl
            ∧ (rt.tpl = "/" ∨ rt.tpl = "/json")) := by
  refine ⟨?_, ?_, ?_⟩
  · intro rt hrt
    rw [mainRouter_dispatch] at hrt
    by_cases hc : mux.cleanPath req.URL.Path ≠ req.URL.Path
    · rw [if_pos hc] at hrt
      cases hrt
    · rw [if_neg hc] at hrt
      by_cases hp : req.URL.Path = "/"
      · have hm : ¬ req.Method = "GET" := fun hm => h1 ⟨hm, hp⟩
        rw [if_pos hp, if_neg hm] at hrt
        cases hrt
      · by_cases hj : req.URL.Path = "/json"
        · have hm : ¬ req.Method = "GET" := fun hm => h2 ⟨hm, hj⟩
          rw [if_neg hp, if_pos hj, if_neg hm] at hrt
          cases hrt
        · rw [if_neg hp, if_neg hj] at hrt
          cases hrt
  · unfold Router.ServeHTTP
    rw [mainRouter_dispatch]
    by_cases hc : mux.cleanPath req.URL.Path ≠ req.URL.Path
    · rw [if_pos hc, if_pos hc]
      rfl
    · rw [if_neg hc, if_neg hc]
      by_cases hp : req.URL.Path = "/"
      · have hm : ¬ req.Method = "GET" := fun hm => h1 ⟨hm, hp⟩
        rw [if_pos hp, if_neg hm, if_pos (Or.inl hp)]
        rfl
      · by_cases hj : req.URL.Path = "/json"
        · have hm : ¬ req.Method = "GET" := fun hm => h2 ⟨hm, hj⟩
          rw [if_neg hp, if_pos hj, if_neg hm, if_pos (Or.inr hj)]
          rfl
        · rw [if_neg hp, if_neg hj, if_neg (fun h => h.elim hp hj)]
          rfl
  · intro req2 rt hrt
    rw [mainRouter_dispatch] at hrt
    by_cases hc : mux.cleanPath req2.URL.Path ≠ req2.URL.Path
    · rw [if_pos hc] at hrt
      cases hrt
    · rw [if_neg hc] at hrt
      by_cases hp : req2.URL.Path = "/"
      · by_cases hm : req2.Method = "GET"
        · rw [if_pos hp, if_pos hm] at hrt
          cases hrt
          exact ⟨hm, hp, Or.inl rfl⟩
        · rw [if_pos hp, if_neg hm] at hrt
          cases hrt
      · by_cases hj : req2.URL.Path = "/json"
        · by_cases hm : req2.Method = "GET"
          · rw [if_neg hp, if_pos hj, if_pos hm] at hrt
            cases hrt
            exact ⟨hm, hj, Or.inr rfl⟩
          · rw [if_neg hp, if_pos hj, if_neg hm] at hrt
            cases hrt
        · rw [if_neg hp, if_neg hj] at hrt
          cases hrt

/-- Witness for C8: `POST /json` (status 405), with the sample clock. -/
theorem router_unmatched_request_witness :
    ¬ ((sampleRequest "POST" "/json").Method = "GET"
        ∧ (sampleRequest "POST" "/json").URL.Path = "/")
    ∧ ¬ ((sampleRequest "POST" "/json").Method = "GET"
        ∧ (sampleRequest "POST" "/json").URL.Path = "/json")
    ∧ statusOf (Router.ServeHTTP (fun u => u.Path)
          (mainRouter (fun v : String => v) (fun _ => "5ns") sampleClock)
          (sampleRequest "POST" "/json")).calls
        = (if mux.cleanPath (sampleRequest "POST" "/json").URL.Path
              ≠ (sampleRequest "POST" "/json").URL.Path then 301
           else if (sampleRequest "POST" "/json").URL.Path = "/"
              ∨ (sampleRequest "POST" "/json").URL.Path = "/json" then 405
           else 404)
    ∧ statusOf (Router.ServeHTTP (fun u => u.Path)
          (mainRouter (fun v : String => v) (fun _ => "5ns") sampleClock)
          (sampleRequest "POST" "/json")).calls = 405 :=
  ⟨by decide, by decide,
    (router_unmatched_request (fun v : String => v) (fun _ => "5ns") sampleClock
      (fun u => u.Path) (sampleRequest "POST" "/json") (by decide) (by decide)).2.1,
    by decide⟩

/-! ## The function `main` -/

/-- C9: the listen address `main` gives the server is `:8080` when `PORT` is unset or
empty, and `:` followed by the value of `PORT`, unchanged, for every non-empty value;
`PORT=9999` gives `:9999`. -/
theorem listen_address_from_PORT (env : String → Option String) :
    ((env "PORT" = none ∨ env "PORT" = some "") → (mainServer env).Addr = ":8080")
    ∧ (∀ p : String, env "PORT" = some p → p ≠ "" → (mainServer env).Addr = ":" ++ p)
    ∧ (env "PORT" = some "9999" → (mainServer env).Addr = ":9999") := by
  have hgen : ∀ p : String, env "PORT" = some p → p ≠ "" →
      (mainServer env).Addr = ":" ++ p := by
    intro p hp hne
    simp [mainServer, mainAddr, os.Getenv, hp, hne]
  refine ⟨?_, hgen, ?_⟩
  · intro h
    rcases h with h | h
    · simp [mainServer, mainAddr, os.Getenv, h]
    · simp [mainServer, mainAddr, os.Getenv, h]
  · intro h
    rw [hgen "9999" h (by decide)]
    rfl

/-- Witness for C9: no variable set, `PORT` set to the empty string, and `PORT=9999`. -/
theorem listen_address_from_PORT_witness :
    (mainServer envEmpty).Addr = ":8080"
    ∧ (mainServer (envWithPort "")).Addr = ":8080"
    ∧ (mainServer (envWithPort "9999")).Addr = ":" ++ "9999"
    ∧ (mainServer (envWithPort "9999")).Addr = ":9999" :=
  ⟨(listen_address_from_PORT envEmpty).1 (Or.inl rfl),
   (listen_address_from_PORT (envWithPort "")).1 (Or.inr (by decide)),
   (listen_address_from_PORT (envWithPort "9999")).2.1 "9999" (by decide) (by decide),
   (listen_address_from_PORT (envWithPort "9999")).2.2 (by decide)⟩

/-- C10: once `SIGINT` or `SIGTERM` has arrived while `main` waits, `main` logs
`Shutting down server...` and calls `Shutdown` with a 30-second deadline; when `Shutdown`
returns no error it logs `Server exiting` and the process ends with status 0; when it
returns an error it logs a fatal line, the process ends with status 1 and
`Server exiting` is logged by neither goroutine.  In every run, a `Shutdown` call or the
shutdown line occurs only after `SIGINT` or `SIGTERM` arrived, and every `Shutdown` call
carries the 30-second deadline. -/
theorem main_shutdown_flow (world : World) :
    ((world.wait = .signal .SIGINT ∨ world.wait = .signal .SIGTERM) →
        (world.shutdownErr = none →
          (main world).main
            = [.goServe (mainServer world.env).Addr,
               .notify [.SIGINT, .SIGTERM],
               .log ⟨.InfoLevel, "Shutting down server..."⟩,
               .shutdown (30 * 1000000000),
               .log ⟨.InfoLevel, "Server exiting"⟩,
               .cancel]
          ∧ (main world).exit = .status 0)
        ∧ (∀ err : String, world.shutdownErr = some err →
          (main world).main
            = [.goServe (mainServer world.env).Addr,
               .notify [.SIGINT, .SIGTERM],
               .log ⟨.InfoLevel, "Shutting down server..."⟩,
               .shutdown (30 * 1000000000),
               .log ⟨.FatalLevel, "Server forced to shutdown: " ++ err⟩]
          ∧ (main world).exit = .status 1
          ∧ (∀ l : Level, Event.log ⟨l, "Server exiting"⟩ ∉ (main world).main
              ∧ Event.log ⟨l, "Server exiting"⟩ ∉ (main world).serve)))
    ∧ (((∃ t : Int, Event.shutdown t ∈ (main world).main)
          ∨ (∃ l : Level, Event.log ⟨l, "Shutting down server..."⟩ ∈ (main world).main)) →
        (world.wait = .signal .SIGINT ∨ world.wait = .signal .SIGTERM))
    ∧ (∀ t : Int, Event.shutdown t ∈ (main world).main → t = 30 * 1000000000) := by
  have hne : ∀ err : String, "Server forced to shutdown: " ++ err ≠ "Server exiting" := by
    intro err h
    have hd := congrArg String.data h
    rw [String.data_append] at hd
    simp at hd
  have hne2 : ∀ addr : String, "Starting server on " ++ addr ≠ "Server exiting" := by
    intro addr h
    have hd := congrArg String.data h
    rw [String.data_append] at hd
    simp at hd
  obtain ⟨env, wait, shutdownErr⟩ := world
  have hserve : ∀ sg : Signal, sg = .SIGINT ∨ sg = .SIGTERM →
      (main ⟨env, .signal sg, shutdownErr⟩).serve
        = [.log ⟨.InfoLevel, "Starting server on " ++ (mainServer env).Addr⟩,
           .listenAndServe (mainServer env).Addr] := by
    intro sg hsg
    rcases hsg with h | h <;> subst h <;> cases shutdownErr <;> rfl
  have hclean : ∀ sg : Signal, sg = .SIGINT ∨ sg = .SIGTERM →
      (main ⟨env, .signal sg, none⟩).main
        = [.goServe (mainServer env).Addr,
           .notify [.SIGINT, .SIGTERM],
           .log ⟨.InfoLevel, "Shutting down server..."⟩,
           .shutdown (30 * 1000000000),
           .log ⟨.InfoLevel, "Server exiting"⟩,
           .cancel]
        ∧ (main ⟨env, .signal sg, none⟩).exit = .status 0 := by
    intro sg hsg
    rcases hsg with h | h <;> subst h <;> exact ⟨rfl, rfl⟩
  have hfatal : ∀ (sg : Signal) (err : String), sg = .SIGINT ∨ sg = .SIGTERM →
      (main ⟨env, .signal sg, some err⟩).main
        = [.goServe (mainServer env).Addr,
           .notify [.SIGINT, .SIGTERM],
           .log ⟨.InfoLevel, "Shutting down server..."⟩,
           .shutdown (30 * 1000000000),
           .log ⟨.FatalLevel, "Server forced to shutdown: " ++ err⟩]
        ∧ (main ⟨env, .signal sg, some err⟩).exit = .status 1 := by
    intro sg err hsg
    rcases hsg with h | h <;> subst h <;> exact ⟨rfl, rfl⟩
  have hother : (wait ≠ .signal .SIGINT ∧ wait ≠ .signal .SIGTERM) →
      (main ⟨env, wait, shutdownErr⟩).main
        = [.goServe (mainServer env).Addr, .notify [.SIGINT, .SIGTERM]] := by
    intro hw
    cases wait with
    | nothing => rfl
    | listenFailed err => rfl
    | signal sg =>
        cases sg
        case SIGINT => exact absurd rfl hw.1
        case SIGTERM => exact absurd rfl hw.2
        all_goals rfl
  refine ⟨?_, ?_, ?_⟩
  · intro hsig
    have hsome : ∃ sg, wait = .signal sg ∧ (sg = .SIGINT ∨ sg = .SIGTERM) := by
      rcases hsig with h | h
      · exact ⟨.SIGINT, h, Or.inl rfl⟩
      · exact ⟨.SIGTERM, h, Or.inr rfl⟩
    obtain ⟨sg, hsg, hkind⟩ := hsome
    subst hsg
    refine ⟨?_, ?_⟩
    · intro herr
      have herr2 : shutdownErr = none := herr
      subst herr2
      exact hclean sg hkind
    · intro err herr
      have herr2 : shutdownErr = some err := herr
      subst herr2
      refine ⟨(hfatal sg err hkind).1, (hfatal sg err hkind).2, ?_⟩
      intro l
      refine ⟨?_, ?_⟩
      · intro hmem
        rw [(hfatal sg err hkind).1] at hmem
        simp only [List.mem_cons, Event.log.injEq, Entry.mk.injEq, List.mem_singleton,
          reduceCtorEq, false_or, List.not_mem_nil, or_false] at hmem
        rcases hmem with hm | hm
        · exact absurd hm.2 (by decide)
        · exact hne err hm.2.symm
      · intro hmem
        rw [hserve sg hkind] at hmem
        simp only [List.mem_cons, Event.log.injEq, Entry.mk.injEq, List.mem_singleton,
          reduceCtorEq, List.not_mem_nil, or_false] at hmem
        exact hne2 _ hmem.2.symm
  · intro hin
    by_cases hw : wait = .signal .SIGINT ∨ wait = .signal .SIGTERM
    · exact hw
    · have hw2 : wait ≠ .signal .SIGINT ∧ wait ≠ .signal .SIGTERM :=
        ⟨fun h => hw (Or.inl h), fun h => hw (Or.inr h)⟩
      rw [hother hw2] at hin
      simp at hin
  · intro t hmem
    by_cases hw : wait = .signal .SIGINT ∨ wait = .signal .SIGTERM
    · have hsome : ∃ sg, wait = .signal sg ∧ (sg = .SIGINT ∨ sg = .SIGTERM) := by
        rcases hw with h | h
        · exact ⟨.SIGINT, h, Or.inl rfl⟩
        · exact ⟨.SIGTERM, h, Or.inr rfl⟩
      obtain ⟨sg, hsg, hkind⟩ := hsome
      subst hsg
      cases shutdownErr with
      | none =>
          rw [(hclean sg hkind).1] at hmem
          simp at hmem
          exact hmem
      | some err =>
          rw [(hfatal sg err hkind).1] at hmem
          simp at hmem
          exact hmem
    · have hw2 : wait ≠ .signal .SIGINT ∧ wait ≠ .signal .SIGTERM :=
        ⟨fun h => hw (Or.inl h), fun h => hw (Or.inr h)⟩
      rw [hother hw2] at hmem
      simp at hmem

/-- Witness for C10: `SIGTERM` with a clean shutdown, and `SIGINT` with a shutdown error. -/
theorem main_shutdown_flow_witness :
    ((main ⟨envEmpty, .signal .SIGTERM, none⟩).main
        = [.goServe ":8080",
           .notify [.SIGINT, .SIGTERM],
           .log ⟨.InfoLevel, "Shutting down server..."⟩,
           .shutdown 30000000000,
           .log ⟨.InfoLevel, "Server exiting"⟩,
           .cancel]
      ∧ (main ⟨envEmpty, .signal .SIGTERM, none⟩).exit = .status 0)
    ∧ (main ⟨envEmpty, .signal .SIGINT, some "context deadline exceeded"⟩).exit = .status 1
    ∧ ((∃ t : Int, Event.shutdown t ∈ (main ⟨envEmpty, .signal .SIGTERM, none⟩).main)
        ∧ ((⟨envEmpty, .signal .SIGTERM, none⟩ : World).wait = .signal .SIGINT
            ∨ (⟨envEmpty, .signal .SIGTERM, none⟩ : World).wait = .signal .SIGTERM)) :=
  ⟨((main_shutdown_flow ⟨envEmpty, .signal .SIGTERM, none⟩).1 (Or.inr rfl)).1 rfl,
   ((((main_shutdown_flow ⟨envEmpty, .signal .SIGINT, some "context deadline exceeded"⟩).1
        (Or.inl rfl)).2 "context deadline exceeded" rfl).2.1),
   ⟨⟨30000000000, by decide⟩,
    (main_shutdown_flow ⟨envEmpty, .signal .SIGTERM, none⟩).2.1
      (Or.inl ⟨30000000000, by decide⟩)⟩⟩

end GoWebServer
